import Mathlib

/-!
Shallow embedding of the double-agent SSH agent proxy core
(src/proxy/proxy.go, src/proxy/discovery.go, and the health-check file),
together with theorems settling the specification claims.

Conventions of the embedding:
* Wall-clock instants and durations are `Nat` nanoseconds (Go `time.Duration`
  counts nanoseconds; `time.Time` zero value is modelled as `0`).
* `time.Since(t)` at instant `now` is modelled as `now - t` (`Nat` monus).
* The outside world (filesystem scan results, the current user, the outcome
  of probing a unix socket, dial success) is an explicit environment record
  passed to each operation; the Go functions read it through syscalls.
* Fallible Go functions returning `(value, error)` become `Option`/`Except`.
-/

namespace DoubleAgent

/-- Modelled from the spec: the Go file defining the wire-protocol type tags
is not among the provided sources (only its users are).  The spec fixes the
tags to "the standard values defined by the OpenSSH agent protocol":
request-identities is 11. -/
def SSH_AGENTC_REQUEST_IDENTITIES : Nat := 11

/-- Modelled from the spec: identity-list success response tag, standard
OpenSSH agent protocol value 12. -/
def SSH_AGENT_IDENTITIES_ANSWER : Nat := 12

/-- Modelled from the spec: generic failure response tag, standard OpenSSH
agent protocol value 5. -/
def SSH_AGENT_FAILURE : Nat := 5

/-- The cache TTL from `FindActiveSocketCached`: `5*time.Second`,
in nanoseconds. -/
def cacheTTL : Nat := 5000000000

/-- One filesystem entry matched by the glob `/tmp/ssh-*/agent.*`, together
with the metadata `DiscoverSockets` inspects: whether `os.Stat` succeeded,
whether the mode has the socket bit, whether `info.Sys()` is a
`*syscall.Stat_t`, the owner uid and the modification time. -/
structure FileInfo where
  path : String
  modTime : Nat
  statOk : Bool
  isSocket : Bool
  sysOk : Bool
  uid : Nat
deriving Repr, DecidableEq

/-- `SocketInfo` from discovery.go. -/
structure SocketInfo where
  Path : String
  ModTime : Nat
  Valid : Bool
deriving Repr, DecidableEq

/-- Environment a discovery pass runs against: the current user's uid
(`none` if `user.Current` fails), the glob result (`none` if
`filepath.Glob` fails), and the outcome `TestSocket` would observe on each
path during this pass. -/
structure DiscEnv where
  currentUid : Option Nat
  globResult : Option (List FileInfo)
  testSocket : String → Bool

/-- The entries `DiscoverSockets` keeps: stat succeeded, socket-mode bit
set, `Stat_t` metadata available, owned by the current user. -/
def keptFiles (uid : Nat) (files : List FileInfo) : List FileInfo :=
  files.filter (fun f => f.statOk && f.isSocket && f.sysOk && decide (f.uid = uid))

/-- The comparison `sort.Slice` runs with:
`less i j = sockets[i].ModTime.After(sockets[j].ModTime)`, i.e. the
corresponding total preorder "newer or equally new first".  `sort.Slice`
is an unstable sort, so any comparison sort for this preorder models it. -/
def newestFirst (a b : SocketInfo) : Prop := b.ModTime ≤ a.ModTime

instance : DecidableRel newestFirst := fun a b => Nat.decLe b.ModTime a.ModTime

instance : IsTotal SocketInfo newestFirst := ⟨fun a b => Nat.le_total b.ModTime a.ModTime⟩

instance : IsTrans SocketInfo newestFirst := ⟨fun _ _ _ h h₂ => Nat.le_trans h₂ h⟩

/-- `DiscoverSockets` (discovery.go): glob, filter by metadata and
ownership, sort by modification time newest first, then set `Valid` on
each entry by probing it with `TestSocket`.  `none` models a returned
error. -/
def DiscoverSockets (env : DiscEnv) : Option (List SocketInfo) :=
  match env.currentUid with
  | none => none
  | some uid =>
    match env.globResult with
    | none => none
    | some files =>
      let sockets := (keptFiles uid files).map
        (fun f => { Path := f.path, ModTime := f.modTime, Valid := false : SocketInfo })
      let sorted := sockets.insertionSort newestFirst
      some (sorted.map (fun s => { s with Valid := env.testSocket s.Path }))

/-- Environment one `TestSocket` probe runs against: whether the dial and
the request write succeed, and the response bytes the peer delivers before
the 1-second read deadline. -/
structure ProbeEnv where
  dialOk : Bool
  writeOk : Bool
  avail : List Nat

/-- `io.ReadFull` into an `n`-byte buffer from a stream that will deliver
`avail` before the deadline: succeeds iff at least `n` bytes arrive. -/
def readFull (avail : List Nat) (n : Nat) : Option (List Nat) :=
  if n ≤ avail.length then some (avail.take n) else none

/-- `TestSocket` (discovery.go), instrumented with the number of response
bytes it consumes: dial, write the 5-byte request, `io.ReadFull` a 5-byte
header under the read deadline, and accept iff the type byte `header[4]`
is `SSH_AGENT_IDENTITIES_ANSWER` or `SSH_AGENT_FAILURE`. -/
def TestSocketRun (env : ProbeEnv) : Bool × Nat :=
  if env.dialOk = false then (false, 0)
  else if env.writeOk = false then (false, 0)
  else
    match readFull env.avail 5 with
    | none => (false, min 5 env.avail.length)
    | some header =>
      let responseType := header.getD 4 0
      (decide (responseType = SSH_AGENT_IDENTITIES_ANSWER)
        || decide (responseType = SSH_AGENT_FAILURE), 5)

/-- The boolean result of `TestSocket`. -/
def TestSocket (env : ProbeEnv) : Bool := (TestSocketRun env).1

/-- The two error return sites of `FindActiveSocket`: a wrapped discovery
error, or `no active SSH agent socket found`. -/
inductive FindErr
  | discoveryFailed
  | notFound
deriving Repr, DecidableEq

/-- `FindActiveSocket` (discovery.go): run discovery, return the path of
the first candidate (newest-first order) marked valid. -/
def FindActiveSocket (env : DiscEnv) : Except FindErr String :=
  match DiscoverSockets env with
  | none => Except.error FindErr.discoveryFailed
  | some sockets =>
    match sockets.find? (fun s => s.Valid) with
    | some socket => Except.ok socket.Path
    | none => Except.error FindErr.notFound

/-- The mutable fields of `AgentProxy` (proxy.go).  The mutex and the
logger carry no forwarded data and are not modelled. -/
structure AgentProxy where
  proxySocket : String
  lastCheck : Nat
  activeSocket : String
deriving Repr, DecidableEq

/-- `NewAgentProxy`: Go zero values — empty cached path, zero check time. -/
def NewAgentProxy (proxySocket : String) : AgentProxy :=
  { proxySocket := proxySocket, lastCheck := 0, activeSocket := "" }

/-- `InvalidateCache`: clears both the cached path and the check time. -/
def InvalidateCache (ap : AgentProxy) : AgentProxy :=
  { ap with activeSocket := "", lastCheck := 0 }

/-- Result of one `FindActiveSocketCached` call: the returned path, the
proxy state after the call, and whether the call ran the full
`FindActiveSocket` rescan. -/
structure CacheCallResult where
  result : String
  state : AgentProxy
  didRescan : Bool
deriving Repr, DecidableEq

/-- The rescan tail of `FindActiveSocketCached`: on error clear
`activeSocket` (only) and return empty; on success store the path and
stamp `lastCheck` with the current instant. -/
def cachedRescan (env : DiscEnv) (now : Nat) (ap : AgentProxy) : CacheCallResult :=
  match FindActiveSocket env with
  | Except.error _ =>
    { result := "", state := { ap with activeSocket := "" }, didRescan := true }
  | Except.ok activeSocket =>
    { result := activeSocket,
      state := { ap with activeSocket := activeSocket, lastCheck := now },
      didRescan := true }

/-- `FindActiveSocketCached` (proxy.go) at wall-clock instant `now`:
if `time.Since(lastCheck) < 5s` and the cached path is non-empty and the
cached socket still probes OK, return it unchanged; otherwise run the full
rescan. -/
def FindActiveSocketCached (env : DiscEnv) (now : Nat) (ap : AgentProxy) :
    CacheCallResult :=
  if now - ap.lastCheck < cacheTTL ∧ ap.activeSocket ≠ "" then
    if env.testSocket ap.activeSocket then
      { result := ap.activeSocket, state := ap, didRescan := false }
    else cachedRescan env now ap
  else cachedRescan env now ap

/-- The generic-failure reply `HandleConnection` writes to the client:
`[]byte{0, 0, 0, 1, SSH_AGENT_FAILURE}`. -/
def failureMsg : List Nat := [0, 0, 0, 1, SSH_AGENT_FAILURE]

/-- Environment one `HandleConnection` call runs against, indexed by the
attempt number: the discovery environment and wall-clock instant seen by
that attempt's `FindActiveSocketCached` call, whether `net.Dial` to a
given socket succeeds on that attempt, and whether the byte pump's first
completed copy direction reports a non-nil, non-EOF error. -/
structure ConnEnv where
  envAt : Nat → DiscEnv
  nowAt : Nat → Nat
  dialOk : Nat → String → Bool
  copyErrAt : Nat → Bool

/-- Observable outcome of one `HandleConnection` call: final proxy state,
the messages written to the client, how many `FindActiveSocketCached`
calls were made, whether a byte pump was started, and whether the client
connection was closed (the deferred close). -/
structure ConnTrace where
  state : AgentProxy
  written : List (List Nat)
  locateCalls : Nat
  forwarded : Bool
  clientClosed : Bool
deriving Repr, DecidableEq

/-- The body of `HandleConnection`'s loop
`for attempt := 0; attempt < 2; attempt++`, with `remaining` the number of
iterations the loop bound still allows (`remaining = 2 - attempt`).
Each iteration: locate via the cache; on empty result write the failure
message if this was the final attempt and continue; on dial failure
invalidate the cache, write the failure message if final, and continue;
on successful dial pump bytes, invalidating the cache on a non-EOF copy
error, and return. -/
def handleLoop (ce : ConnEnv) (attempt remaining : Nat) (ap : AgentProxy)
    (written : List (List Nat)) (locateCalls : Nat) : ConnTrace :=
  match remaining with
  | 0 =>
    { state := ap, written := written, locateCalls := locateCalls,
      forwarded := false, clientClosed := true }
  | r + 1 =>
    let call := FindActiveSocketCached (ce.envAt attempt) (ce.nowAt attempt) ap
    if call.result = "" then
      let written1 := if attempt = 1 then written ++ [failureMsg] else written
      handleLoop ce (attempt + 1) r call.state written1 (locateCalls + 1)
    else if ce.dialOk attempt call.result then
      let afterPump :=
        if ce.copyErrAt attempt then InvalidateCache call.state else call.state
      { state := afterPump, written := written, locateCalls := locateCalls + 1,
        forwarded := true, clientClosed := true }
    else
      let written1 := if attempt = 1 then written ++ [failureMsg] else written
      handleLoop ce (attempt + 1) r (InvalidateCache call.state) written1
        (locateCalls + 1)

/-- `HandleConnection` (proxy.go): the bounded retry loop starting at
attempt 0 with 2 iterations allowed, no messages written yet. -/
def HandleConnection (ce : ConnEnv) (ap : AgentProxy) : ConnTrace :=
  handleLoop ce 0 2 ap [] 0

/-- Environment one `HealthCheck` call runs against: whether the dial and
the request write succeed, and the response bytes the proxy delivers
before the read deadline. -/
structure HealthEnv where
  dialOk : Bool
  writeOk : Bool
  avail : List Nat

/-- The distinct return sites of `HealthCheck`; `healthy` is the nil
return, everything else a distinct error. -/
inductive HealthResult
  | healthy
  | connectFailed
  | writeFailed
  | readHeaderFailed
  | invalidLength (len : Nat)
  | readBodyFailed
  | noAgent
  | unexpectedType (t : Nat)
  | emptyResponse
deriving Repr, DecidableEq

/-- Pad a byte list with zeros on the right to length `n` (a Go buffer is
zero-initialized, and a single `conn.Read` may fill only a prefix). -/
def padTo (l : List Nat) (n : Nat) : List Nat :=
  l ++ List.replicate (n - l.length) 0

/-- `binary.BigEndian.Uint32` of a 4-byte buffer. -/
def be32 (l : List Nat) : Nat :=
  l.getD 0 0 * 16777216 + l.getD 1 0 * 65536 + l.getD 2 0 * 256 + l.getD 3 0

/-- `HealthCheck` (the health-check source file), instrumented with the
list of `make([]byte, n)` allocation sizes it performs.  Dial, write the
request, single `conn.Read` into a 4-byte header buffer (errors only if no
byte arrives), parse the big-endian length, reject lengths above
`1024*1024` BEFORE allocating the response buffer, then allocate, read the
body with a second single `conn.Read`, and classify the first body byte. -/
def HealthCheckRun (env : HealthEnv) : HealthResult × List Nat :=
  if env.dialOk = false then (HealthResult.connectFailed, [])
  else if env.writeOk = false then (HealthResult.writeFailed, [])
  else
    if env.avail.isEmpty then (HealthResult.readHeaderFailed, [4])
    else
      let n := min 4 env.avail.length
      let header := padTo (env.avail.take n) 4
      let respLen := be32 header
      if respLen > 1024 * 1024 then (HealthResult.invalidLength respLen, [4])
      else
        let rest := env.avail.drop n
        if respLen > 0 ∧ rest.isEmpty then (HealthResult.readBodyFailed, [4, respLen])
        else
          if respLen > 0 then
            let responseType := rest.getD 0 0
            if responseType = SSH_AGENT_IDENTITIES_ANSWER then
              (HealthResult.healthy, [4, respLen])
            else if responseType = SSH_AGENT_FAILURE then
              (HealthResult.noAgent, [4, respLen])
            else (HealthResult.unexpectedType responseType, [4, respLen])
          else (HealthResult.emptyResponse, [4, respLen])

/-- The declared response length `HealthCheck` parses from `env`. -/
def healthRespLen (env : HealthEnv) : Nat :=
  be32 (padTo (env.avail.take (min 4 env.avail.length)) 4)

/-! ## Helper lemmas about the cache -/

lemma cachedRescan_didRescan (env : DiscEnv) (now : Nat) (ap : AgentProxy) :
    (cachedRescan env now ap).didRescan = true := by
  unfold cachedRescan
  cases FindActiveSocket env <;> rfl

lemma cached_fastPath (env : DiscEnv) (now : Nat) (ap : AgentProxy)
    (hne : ap.activeSocket ≠ "") (hwin : now - ap.lastCheck < cacheTTL)
    (hval : env.testSocket ap.activeSocket = true) :
    FindActiveSocketCached env now ap =
      { result := ap.activeSocket, state := ap, didRescan := false } := by
  unfold FindActiveSocketCached
  rw [if_pos ⟨hwin, hne⟩, if_pos hval]

lemma cached_state_activeSocket (env : DiscEnv) (now : Nat) (ap : AgentProxy) :
    (FindActiveSocketCached env now ap).state.activeSocket =
      (FindActiveSocketCached env now ap).result := by
  unfold FindActiveSocketCached cachedRescan
  split
  · split
    · rfl
    · cases FindActiveSocket env <;> rfl
  · cases FindActiveSocket env <;> rfl

lemma cachedRescan_ok (env : DiscEnv) (now : Nat) (ap : AgentProxy) (p : String)
    (h : FindActiveSocket env = Except.ok p) :
    cachedRescan env now ap =
      { result := p, state := { ap with activeSocket := p, lastCheck := now },
        didRescan := true } := by
  unfold cachedRescan
  rw [h]

lemma cachedRescan_error (env : DiscEnv) (now : Nat) (ap : AgentProxy) (er : FindErr)
    (h : FindActiveSocket env = Except.error er) :
    cachedRescan env now ap =
      { result := "", state := { ap with activeSocket := "" }, didRescan := true } := by
  unfold cachedRescan
  rw [h]

lemma cached_cases (env : DiscEnv) (now : Nat) (ap : AgentProxy) :
    FindActiveSocketCached env now ap =
      { result := ap.activeSocket, state := ap, didRescan := false } ∨
    FindActiveSocketCached env now ap = cachedRescan env now ap := by
  unfold FindActiveSocketCached
  split
  · split
    · exact Or.inl rfl
    · exact Or.inr rfl
  · exact Or.inr rfl

/-! ## Claim C1 — TTL boundary of the cache -/

/-- Claim C1, counterexample: the claim that a `getActive()` call strictly
before `T+5s` never triggers a full rescan (absent invalidation) is false
on the code: with a non-empty cached path confirmed at `T = 100` and a
call at `101` (1ns later, well inside the TTL window), the cached socket
failing its cheap re-validation makes the call run the full rescan. -/
theorem C1_counterexample :
    (FindActiveSocketCached
      { currentUid := some 1000, globResult := some [], testSocket := fun _ => false }
      101
      { proxySocket := "/tmp/proxy", lastCheck := 100, activeSocket := "/tmp/ssh-x/agent.1" }).didRescan
      = true := by decide

/-- Claim C1, amended: a `getActive()` call at any time `≥ T + 5s` after
the confirmation time `T` runs the full `findActive()` rescan, and a call
strictly before `T + 5s` with a non-empty cached path does not run it
PROVIDED the cheap re-validation of the cached path succeeds. -/
theorem C1_ttl_boundary (env : DiscEnv) (ap : AgentProxy) (T d : Nat)
    (hT : ap.lastCheck = T) :
    (cacheTTL ≤ d → (FindActiveSocketCached env (T + d) ap).didRescan = true) ∧
    (d < cacheTTL → ap.activeSocket ≠ "" → env.testSocket ap.activeSocket = true →
      (FindActiveSocketCached env (T + d) ap).didRescan = false) := by
  subst hT
  constructor
  · intro h
    unfold FindActiveSocketCached
    rw [if_neg]
    · exact cachedRescan_didRescan env _ ap
    · rintro ⟨hlt, -⟩
      omega
  · intro h hne hval
    rw [cached_fastPath env _ ap hne (by omega) hval]

/-- Claim C1, witness: the boundary case itself — a call exactly `5s`
after confirmation at `T = 10` rescans. -/
theorem C1_witness :
    cacheTTL ≤ cacheTTL ∧
      (FindActiveSocketCached
        { currentUid := some 1000, globResult := some [], testSocket := fun _ => true }
        (10 + cacheTTL)
        { proxySocket := "p", lastCheck := 10, activeSocket := "a" }).didRescan = true :=
  ⟨Nat.le_refl _,
    (C1_ttl_boundary
      { currentUid := some 1000, globResult := some [], testSocket := fun _ => true }
      { proxySocket := "p", lastCheck := 10, activeSocket := "a" }
      10 cacheTTL rfl).1 (Nat.le_refl _)⟩

/-! ## Claim C2 — forwarder retry and failure reply -/

/-- Claim C2: `HandleConnection` makes at most 2 locate attempts; when the
first attempt fails at Locate (empty path) or Connect (dial failure) a
second locate attempt always happens; only when no attempt reaches the
byte pump is the single generic-failure message `[0,0,0,1,failure-tag]`
written to the client, and the client connection is always closed. -/
theorem C2_retry_logic (ce : ConnEnv) (ap : AgentProxy) :
    (HandleConnection ce ap).locateCalls ≤ 2 ∧
    ((HandleConnection ce ap).forwarded = false →
      (HandleConnection ce ap).locateCalls = 2 ∧
      (HandleConnection ce ap).written = [failureMsg]) ∧
    ((HandleConnection ce ap).forwarded = true →
      (HandleConnection ce ap).written = []) ∧
    ((FindActiveSocketCached (ce.envAt 0) (ce.nowAt 0) ap).result = "" ∨
      ce.dialOk 0 (FindActiveSocketCached (ce.envAt 0) (ce.nowAt 0) ap).result = false →
      (HandleConnection ce ap).locateCalls = 2) ∧
    (HandleConnection ce ap).clientClosed = true := by
  unfold HandleConnection
  simp only [handleLoop]
  norm_num
  split_ifs <;> simp_all

/-- Claim C2, witness: with discovery failing on both attempts the
forwarder makes exactly 2 locate calls and writes exactly one failure
message. -/
theorem C2_witness :
    (HandleConnection
      { envAt := fun _ => { currentUid := none, globResult := none, testSocket := fun _ => false },
        nowAt := fun _ => 0, dialOk := fun _ _ => false, copyErrAt := fun _ => false }
      (NewAgentProxy "p")).locateCalls = 2 ∧
    (HandleConnection
      { envAt := fun _ => { currentUid := none, globResult := none, testSocket := fun _ => false },
        nowAt := fun _ => 0, dialOk := fun _ _ => false, copyErrAt := fun _ => false }
      (NewAgentProxy "p")).written = [failureMsg] :=
  (C2_retry_logic
    { envAt := fun _ => { currentUid := none, globResult := none, testSocket := fun _ => false },
      nowAt := fun _ => 0, dialOk := fun _ _ => false, copyErrAt := fun _ => false }
    (NewAgentProxy "p")).2.1 (by decide)

/-! ## Claim C3 — validation probe boundary -/

/-- Claim C3: `TestSocket` returns `true` iff the dial and the request
write succeed, a complete 5-byte response header arrives before the read
deadline, and its type tag is the identity-list-success tag or the
generic-failure tag; and the probe never consumes more than the 5 header
bytes of the response. -/
theorem C3_validate_iff (env : ProbeEnv) :
    (TestSocket env = true ↔
      env.dialOk = true ∧ env.writeOk = true ∧ 5 ≤ env.avail.length ∧
        (env.avail.getD 4 0 = SSH_AGENT_IDENTITIES_ANSWER ∨
          env.avail.getD 4 0 = SSH_AGENT_FAILURE)) ∧
    (TestSocketRun env).2 ≤ 5 := by
  unfold TestSocket TestSocketRun readFull
  by_cases h5 : 5 ≤ env.avail.length
  · have h4 : 4 < env.avail.length := by omega
    cases hd : env.dialOk <;> cases hw : env.writeOk <;>
      simp [h5, List.getD_eq_getElem?_getD, List.getElem?_take, Nat.min_le_left,
        List.getElem?_eq_getElem h4]
  · cases hd : env.dialOk <;> cases hw : env.writeOk <;>
      simp [h5, Nat.min_le_left]

/-- Claim C3, witness: a peer that immediately answers with a correctly
framed generic-failure response validates. -/
theorem C3_witness :
    TestSocket { dialOk := true, writeOk := true, avail := [0, 0, 0, 1, 5] } = true :=
  ((C3_validate_iff { dialOk := true, writeOk := true, avail := [0, 0, 0, 1, 5] }).1).mpr
    ⟨rfl, rfl, by decide, Or.inr rfl⟩

/-! ## Claim C4 — findActive returns the first valid candidate or NotFoundError -/

/-- Claim C4: when discovery succeeds with candidate list `l` (already in
newest-first order), `FindActiveSocket` returns the path of the first
candidate of `l` marked valid, or `notFound` when none is (in particular
when `l` is empty); a successful-but-empty discovery is never reported as
a discovery error. -/
theorem C4_find_first_valid (env : DiscEnv) (l : List SocketInfo)
    (h : DiscoverSockets env = some l) :
    FindActiveSocket env =
      (match l.find? (fun s => s.Valid) with
       | some socket => Except.ok socket.Path
       | none => Except.error FindErr.notFound) ∧
    FindActiveSocket env ≠ Except.error FindErr.discoveryFailed ∧
    (l = [] → FindActiveSocket env = Except.error FindErr.notFound) := by
  unfold FindActiveSocket
  rw [h]
  refine ⟨rfl, ?_, ?_⟩
  · cases hf : l.find? (fun s => s.Valid) <;> simp [hf]
  · intro hl
    subst hl
    rfl

/-- Claim C4, witness: a scan that succeeds but matches nothing yields
`notFound`, not a discovery error. -/
theorem C4_witness :
    FindActiveSocket { currentUid := some 1000, globResult := some [], testSocket := fun _ => false } =
      (match ([] : List SocketInfo).find? (fun s => s.Valid) with
       | some socket => Except.ok socket.Path
       | none => Except.error FindErr.notFound) ∧
    FindActiveSocket { currentUid := some 1000, globResult := some [], testSocket := fun _ => false } ≠
      Except.error FindErr.discoveryFailed ∧
    (([] : List SocketInfo) = [] →
      FindActiveSocket { currentUid := some 1000, globResult := some [], testSocket := fun _ => false } =
        Except.error FindErr.notFound) :=
  C4_find_first_valid
    { currentUid := some 1000, globResult := some [], testSocket := fun _ => false }
    [] rfl

/-! ## Claim C5 — discovery ordering -/

/-- Claim C5: a successful `DiscoverSockets` pass whose results carry
pairwise distinct modification times returns them in strictly descending
modification-time order, and the returned paths are exactly (a permutation
of) the kept candidate paths. -/
theorem C5_discovery_ordering (env : DiscEnv) (l : List SocketInfo)
    (h : DiscoverSockets env = some l)
    (hdist : l.Pairwise (fun a b => a.ModTime ≠ b.ModTime)) :
    l.Pairwise (fun a b => b.ModTime < a.ModTime) ∧
    ∃ uid files, env.currentUid = some uid ∧ env.globResult = some files ∧
      (l.map SocketInfo.Path).Perm ((keptFiles uid files).map FileInfo.path) := by
  unfold DiscoverSockets at h
  cases hcu : env.currentUid with
  | none =>
    rw [hcu] at h
    exact absurd h (by simp)
  | some uid =>
    rw [hcu] at h
    cases hgr : env.globResult with
    | none =>
      rw [hgr] at h
      exact absurd h (by simp)
    | some files =>
      rw [hgr] at h
      simp only [Option.some.injEq] at h
      subst h
      constructor
      · have hle : ((((keptFiles uid files).map
            (fun f => { Path := f.path, ModTime := f.modTime, Valid := false : SocketInfo })).insertionSort
              newestFirst).map
                (fun s => { s with Valid := env.testSocket s.Path })).Pairwise
            (fun a b => b.ModTime ≤ a.ModTime) :=
          (List.sorted_insertionSort newestFirst _).map _ (fun a b hab => hab)
        exact (hle.and hdist).imp (fun hab => lt_of_le_of_ne hab.1 (Ne.symm hab.2))
      · refine ⟨uid, files, rfl, rfl, ?_⟩
        have hp : ((((keptFiles uid files).map
            (fun f => { Path := f.path, ModTime := f.modTime, Valid := false : SocketInfo })).insertionSort
              newestFirst).map
                (fun s => SocketInfo.Path { s with Valid := env.testSocket s.Path })).Perm
            (((keptFiles uid files).map
              (fun f => { Path := f.path, ModTime := f.modTime, Valid := false : SocketInfo })).map
                (fun s => SocketInfo.Path { s with Valid := env.testSocket s.Path })) :=
          (List.perm_insertionSort newestFirst _).map _
        simpa [List.map_map, Function.comp] using hp

/-- Claim C5, witness: two candidates modified at times 3 and 7 come back
newest first. -/
theorem C5_witness :
    ([{ Path := "b", ModTime := 7, Valid := false },
      { Path := "a", ModTime := 3, Valid := false }] : List SocketInfo).Pairwise
        (fun a b => b.ModTime < a.ModTime) ∧
    ∃ uid files,
      ({ currentUid := some 1000,
         globResult := some
           [{ path := "a", modTime := 3, statOk := true, isSocket := true, sysOk := true, uid := 1000 },
            { path := "b", modTime := 7, statOk := true, isSocket := true, sysOk := true, uid := 1000 }],
         testSocket := fun _ => false } : DiscEnv).currentUid = some uid ∧
      ({ currentUid := some 1000,
         globResult := some
           [{ path := "a", modTime := 3, statOk := true, isSocket := true, sysOk := true, uid := 1000 },
            { path := "b", modTime := 7, statOk := true, isSocket := true, sysOk := true, uid := 1000 }],
         testSocket := fun _ => false } : DiscEnv).globResult = some files ∧
      (([{ Path := "b", ModTime := 7, Valid := false },
         { Path := "a", ModTime := 3, Valid := false }] : List SocketInfo).map
           SocketInfo.Path).Perm ((keptFiles uid files).map FileInfo.path) :=
  C5_discovery_ordering
    { currentUid := some 1000,
      globResult := some
        [{ path := "a", modTime := 3, statOk := true, isSocket := true, sysOk := true, uid := 1000 },
         { path := "b", modTime := 7, statOk := true, isSocket := true, sysOk := true, uid := 1000 }],
      testSocket := fun _ => false }
    [{ Path := "b", ModTime := 7, Valid := false },
     { Path := "a", ModTime := 3, Valid := false }]
    (by decide) (by decide)

/-! ## Claim C6 — cache state after a failed rescan -/

/-- Claim C6, counterexample: the claim that a failed rescan clears BOTH
the cached path and the confirmation timestamp is false on the code: with
`lastCheck = 7` and a failing rescan, the call returns the empty path and
clears the cached path, but `lastCheck` remains `7` (it is not reset to
the zero value the way `InvalidateCache` resets it). -/
theorem C6_counterexample :
    (FindActiveSocketCached
      { currentUid := some 1000, globResult := some [], testSocket := fun _ => false }
      (7 + cacheTTL)
      { proxySocket := "p", lastCheck := 7, activeSocket := "s" }).result = "" ∧
    (FindActiveSocketCached
      { currentUid := some 1000, globResult := some [], testSocket := fun _ => false }
      (7 + cacheTTL)
      { proxySocket := "p", lastCheck := 7, activeSocket := "s" }).state.activeSocket = "" ∧
    (FindActiveSocketCached
      { currentUid := some 1000, globResult := some [], testSocket := fun _ => false }
      (7 + cacheTTL)
      { proxySocket := "p", lastCheck := 7, activeSocket := "s" }).state.lastCheck = 7 := by
  refine ⟨?_, ?_, ?_⟩ <;> decide

/-- Claim C6, amended: whenever the full rescan inside
`FindActiveSocketCached` fails, the call clears the cached path and
returns the empty path; the confirmation timestamp is left unchanged
(which is harmless, since the cached fast path also requires a non-empty
cached path). -/
theorem C6_rescan_failure (env : DiscEnv) (now : Nat) (ap : AgentProxy) (er : FindErr)
    (hfail : FindActiveSocket env = Except.error er)
    (hres : (FindActiveSocketCached env now ap).didRescan = true) :
    (FindActiveSocketCached env now ap).result = "" ∧
    (FindActiveSocketCached env now ap).state.activeSocket = "" ∧
    (FindActiveSocketCached env now ap).state.lastCheck = ap.lastCheck ∧
    (FindActiveSocketCached env now ap).state.proxySocket = ap.proxySocket := by
  have hre : cachedRescan env now ap =
      { result := "", state := { ap with activeSocket := "" }, didRescan := true } := by
    unfold cachedRescan
    rw [hfail]
  by_cases hc : now - ap.lastCheck < cacheTTL ∧ ap.activeSocket ≠ ""
  · by_cases hv : env.testSocket ap.activeSocket = true
    · rw [cached_fastPath env now ap hc.2 hc.1 hv] at hres
      simp at hres
    · unfold FindActiveSocketCached
      rw [if_pos hc, if_neg hv, hre]
      exact ⟨rfl, rfl, rfl, rfl⟩
  · unfold FindActiveSocketCached
    rw [if_neg hc, hre]
    exact ⟨rfl, rfl, rfl, rfl⟩

/-- Claim C6, witness: a failed rescan on a concrete state clears the
path, returns empty, and leaves `lastCheck` and `proxySocket` as they
were. -/
theorem C6_witness :
    (FindActiveSocketCached
      { currentUid := none, globResult := none, testSocket := fun _ => false }
      77
      { proxySocket := "q", lastCheck := 3, activeSocket := "dead" }).result = "" ∧
    (FindActiveSocketCached
      { currentUid := none, globResult := none, testSocket := fun _ => false }
      77
      { proxySocket := "q", lastCheck := 3, activeSocket := "dead" }).state.activeSocket = "" ∧
    (FindActiveSocketCached
      { currentUid := none, globResult := none, testSocket := fun _ => false }
      77
      { proxySocket := "q", lastCheck := 3, activeSocket := "dead" }).state.lastCheck =
        ({ proxySocket := "q", lastCheck := 3, activeSocket := "dead" } : AgentProxy).lastCheck ∧
    (FindActiveSocketCached
      { currentUid := none, globResult := none, testSocket := fun _ => false }
      77
      { proxySocket := "q", lastCheck := 3, activeSocket := "dead" }).state.proxySocket =
        ({ proxySocket := "q", lastCheck := 3, activeSocket := "dead" } : AgentProxy).proxySocket :=
  C6_rescan_failure
    { currentUid := none, globResult := none, testSocket := fun _ => false }
    77
    { proxySocket := "q", lastCheck := 3, activeSocket := "dead" }
    FindErr.discoveryFailed rfl (by decide)

/-! ## Claim C7 — idempotence within one TTL window -/

/-- Claim C7: calling `getActive()` twice with no intervening
`invalidate()`, where the first call produced a non-empty path, the second
call falls inside the TTL window of the state the first call left behind,
and the cached endpoint still re-validates on the second call, returns the
same path both times. -/
theorem C7_idempotent (env1 env2 : DiscEnv) (now1 now2 : Nat) (ap : AgentProxy)
    (h1 : (FindActiveSocketCached env1 now1 ap).result ≠ "")
    (hwin : now2 - (FindActiveSocketCached env1 now1 ap).state.lastCheck < cacheTTL)
    (hval : env2.testSocket (FindActiveSocketCached env1 now1 ap).result = true) :
    (FindActiveSocketCached env2 now2 (FindActiveSocketCached env1 now1 ap).state).result =
      (FindActiveSocketCached env1 now1 ap).result := by
  have hact := cached_state_activeSocket env1 now1 ap
  rw [cached_fastPath env2 now2 _ (by rw [hact]; exact h1) hwin (by rw [hact]; exact hval)]
  exact hact

/-- Claim C7, witness: a fresh proxy discovers socket `a` at time 50 and
returns the same path again at time 52. -/
theorem C7_witness :
    (FindActiveSocketCached
      { currentUid := some 1000,
        globResult := some [{ path := "a", modTime := 3, statOk := true,
                              isSocket := true, sysOk := true, uid := 1000 }],
        testSocket := fun _ => true }
      52
      (FindActiveSocketCached
        { currentUid := some 1000,
          globResult := some [{ path := "a", modTime := 3, statOk := true,
                                isSocket := true, sysOk := true, uid := 1000 }],
          testSocket := fun _ => true }
        50 (NewAgentProxy "p")).state).result =
    (FindActiveSocketCached
      { currentUid := some 1000,
        globResult := some [{ path := "a", modTime := 3, statOk := true,
                              isSocket := true, sysOk := true, uid := 1000 }],
        testSocket := fun _ => true }
      50 (NewAgentProxy "p")).result :=
  C7_idempotent
    { currentUid := some 1000,
      globResult := some [{ path := "a", modTime := 3, statOk := true,
                            isSocket := true, sysOk := true, uid := 1000 }],
      testSocket := fun _ => true }
    { currentUid := some 1000,
      globResult := some [{ path := "a", modTime := 3, statOk := true,
                            isSocket := true, sysOk := true, uid := 1000 }],
      testSocket := fun _ => true }
    50 52 (NewAgentProxy "p") (by decide) (by decide) (by decide)

/-! ## Claim C8 — oversized-length guard in HealthCheck -/

/-- Claim C8: when the 4-byte big-endian length prefix read from the proxy
decodes to a value strictly above `1024*1024`, `HealthCheck` returns the
invalid-length error having allocated only the 4-byte header buffer: the
declared length is never among the allocation sizes. -/
theorem C8_oversized_length_guard (env : HealthEnv) (hd : env.dialOk = true)
    (hw : env.writeOk = true) (hne : env.avail ≠ [])
    (hlen : healthRespLen env > 1048576) :
    HealthCheckRun env = (HealthResult.invalidLength (healthRespLen env), [4]) ∧
    healthRespLen env ∉ (HealthCheckRun env).2 := by
  have hrun : HealthCheckRun env = (HealthResult.invalidLength (healthRespLen env), [4]) := by
    unfold HealthCheckRun
    rw [hd, hw]
    simp only [Bool.true_eq_false, if_false]
    rw [if_neg (by simpa [List.isEmpty_iff] using hne), if_pos (by exact hlen)]
    rfl
  refine ⟨hrun, ?_⟩
  rw [hrun]
  intro hmem
  simp at hmem
  omega

/-- Claim C8, witness: a peer declaring length `0x00100001 = 1 MiB + 1`
makes `HealthCheck` fail before any body allocation. -/
theorem C8_witness :
    HealthCheckRun { dialOk := true, writeOk := true, avail := [0, 16, 0, 1] } =
      (HealthResult.invalidLength
        (healthRespLen { dialOk := true, writeOk := true, avail := [0, 16, 0, 1] }), [4]) ∧
    healthRespLen { dialOk := true, writeOk := true, avail := [0, 16, 0, 1] } ∉
      (HealthCheckRun { dialOk := true, writeOk := true, avail := [0, 16, 0, 1] }).2 :=
  C8_oversized_length_guard
    { dialOk := true, writeOk := true, avail := [0, 16, 0, 1] }
    rfl rfl (by decide) (by decide)

/-! ## Claim C9 — frame effect of a cache hit -/

/-- Claim C9: on a cache hit (non-empty cached path, inside the TTL
window, cheap re-validation succeeds) `FindActiveSocketCached` returns
the cached path and leaves the whole `AgentProxy` state unchanged; and in
general `lastCheck` changes only when a call ran the full rescan, that
rescan succeeded, and the new value is the call's wall-clock instant. -/
theorem C9_cache_hit_frame (env : DiscEnv) (now : Nat) (ap : AgentProxy)
    (hne : ap.activeSocket ≠ "") (hwin : now - ap.lastCheck < cacheTTL)
    (hval : env.testSocket ap.activeSocket = true) :
    FindActiveSocketCached env now ap =
      { result := ap.activeSocket, state := ap, didRescan := false } ∧
    (∀ (env2 : DiscEnv) (now2 : Nat) (ap2 : AgentProxy),
      (FindActiveSocketCached env2 now2 ap2).state.lastCheck ≠ ap2.lastCheck →
      (FindActiveSocketCached env2 now2 ap2).didRescan = true ∧
      (∃ p, FindActiveSocket env2 = Except.ok p) ∧
      (FindActiveSocketCached env2 now2 ap2).state.lastCheck = now2) := by
  refine ⟨cached_fastPath env now ap hne hwin hval, fun env2 now2 ap2 hch => ?_⟩
  rcases cached_cases env2 now2 ap2 with hc | hc
  · rw [hc] at hch
    exact absurd rfl hch
  · cases hfa : FindActiveSocket env2 with
    | error er =>
      rw [hc, cachedRescan_error env2 now2 ap2 er hfa] at hch
      exact absurd rfl hch
    | ok p =>
      rw [hc, cachedRescan_ok env2 now2 ap2 p hfa]
      exact ⟨rfl, ⟨p, rfl⟩, rfl⟩

/-- Claim C9, witness: a concrete cache hit returns the cached path with
the state untouched. -/
theorem C9_witness :
    FindActiveSocketCached
      { currentUid := none, globResult := none, testSocket := fun _ => true }
      52 { proxySocket := "p", lastCheck := 50, activeSocket := "a" } =
      { result := "a",
        state := { proxySocket := "p", lastCheck := 50, activeSocket := "a" },
        didRescan := false } :=
  (C9_cache_hit_frame
    { currentUid := none, globResult := none, testSocket := fun _ => true }
    52 { proxySocket := "p", lastCheck := 50, activeSocket := "a" }
    (by decide) (by decide) rfl).1

/-! ## Claim C10 — an empty cached path always rescans -/

/-- Claim C10: `NewAgentProxy` starts with an empty cached path and zero
check time, and every `FindActiveSocketCached` call on a state whose
cached path is empty runs the full discovery, whatever the stored check
time — a cleared path is never served as a stale cache hit. -/
theorem C10_cleared_path_forces_rescan (p : String) :
    (NewAgentProxy p).activeSocket = "" ∧ (NewAgentProxy p).lastCheck = 0 ∧
    (∀ (env : DiscEnv) (now : Nat) (ap : AgentProxy), ap.activeSocket = "" →
      (FindActiveSocketCached env now ap).didRescan = true) := by
  refine ⟨rfl, rfl, fun env now ap hemp => ?_⟩
  unfold FindActiveSocketCached
  rw [if_neg]
  · exact cachedRescan_didRescan env now ap
  · rintro ⟨-, hne⟩
    exact hne hemp

/-- Claim C10, witness: the first call on a fresh proxy rescans even at
wall-clock instant 0, where the stored check time is inside the TTL
window. -/
theorem C10_witness :
    (FindActiveSocketCached
      { currentUid := none, globResult := none, testSocket := fun _ => true }
      0 (NewAgentProxy "x")).didRescan = true :=
  (C10_cleared_path_forces_rescan "x").2.2
    { currentUid := none, globResult := none, testSocket := fun _ => true }
    0 (NewAgentProxy "x") rfl

end DoubleAgent
